import Mathlib

/-!
# Verification of `connectome-manipulator` (conn_wiring)

Shallow embedding of `src/connectome_manipulator/connectome_manipulation/conn_wiring.py`
(the connectome wiring manipulation) and of the post-manipulation assertion in
`src/connectome_manipulator/connectome_manipulation/connectome_manipulation.py` (line 336).

Conventions of the embedding:
* Python floats are modelled as `Rat`; node ids and `syn_type_id` as `Nat`.
* A pandas `DataFrame` of edges is an `EdgesTable`: a list of synapse rows plus an
  explicit index column of equal length (pandas keeps an index of the same length
  as the data).
* Fallible Python code (assertions via `log.log_assert`, unhandled `NameError` /
  `IndexError` exceptions) is modelled with `Except PyErr`.
* `np.random.permutation` is modelled by an oracle function `Env.permutation`
  supplied by the caller; theorems that depend on it being a permutation take that
  as a hypothesis.
* In `conn_wiring.py`, everything after the unconditional `return edges_table` at
  line 69 (lines 71-202) is unreachable dead code and is therefore not part of the
  embedded behaviour of `apply`; the embedding stops exactly at that `return`.
-/

/-- Runtime failures of the embedded Python code: fatal assertion failures raised by
`log.log_assert`, `NameError` for an undefined identifier, and numpy indexing/shape
errors. -/
inductive PyErr where
  | assertionError (msg : String)
  | nameError (name : String)
  | indexError
  | valueError
  deriving Repr, DecidableEq

/-- Modelled from the spec: `connectome_manipulator.log` is not under `src/`; per spec
§7 all failures are fatal assertions with a descriptive message, so `log.log_assert`
raises a fatal `AssertionError` carrying the message when the condition is false and
does nothing otherwise. -/
def log_assert (cond : Bool) (msg : String) : Except PyErr Unit :=
  if cond then .ok () else .error (.assertionError msg)

/-- One synapse row of the edges table (`conn_wiring.py` accesses the columns
`@source_node`, `@target_node`, `syn_type_id`, `delay` and the three
`afferent_center_{x,y,z}` position columns; all further columns are an open-ended
list of named numeric properties). -/
structure SynRow where
  source_node : Nat
  target_node : Nat
  syn_type_id : Nat
  delay : Rat
  afferent_center_x : Rat
  afferent_center_y : Rat
  afferent_center_z : Rat
  other_props : List (String × Rat)
  deriving Repr, DecidableEq

/-- A pandas edges `DataFrame`: the synapse rows plus the frame's index, which always
has the same length as the data. -/
structure EdgesTable where
  rows : List SynRow
  index : List Nat
  hlen : index.length = rows.length

/-- A SONATA node population, as consumed by `conn_wiring.apply`: node ids plus the
per-node properties `synapse_class`, `mtype`, `layer` and the 3D soma positions. -/
structure NodePop where
  ids : List Nat
  synapse_class : Nat → String
  mtype : Nat → String
  layer : Nat → String
  positions : Nat → Rat × Rat × Rat

/-- The auxiliary dict passed by the driver loop; `conn_wiring.apply` only reads
`aux_dict['split_ids']` (the target-node ids of the current split). -/
structure AuxDict where
  split_ids : List Nat

/-- External environment of `apply`: `os.path.exists`, the position-mapping model
loader `conn_prob.load_pos_mapping_model` (modelled from the spec: `conn_prob` is not
under `src/`; per spec §6 it is an optional function from node id to a 3D position),
and the random permutation drawn by `np.random.permutation`. -/
structure Env where
  file_exists : String → Bool
  load_pos_mapping : Option String → Option (Nat → Rat × Rat × Rat)
  permutation : List Bool → List Bool

/-- Modelled from the spec: `access_functions.get_node_ids` is not under `src/`; per
spec §6, `sel_src`/`sel_dest` are neuron-subset predicates, so the function returns
the population's ids restricted by the optional selector. -/
def get_node_ids (pop : NodePop) (sel : Option (Nat → Bool)) : List Nat :=
  match sel with
  | none => pop.ids
  | some s => pop.ids.filter s

/-- Insert into a sorted list (ascending), used to model numpy's sorted outputs. -/
def insort (x : Nat) : List Nat → List Nat
  | [] => [x]
  | y :: ys => if x ≤ y then x :: y :: ys else y :: insort x ys

/-- Ascending sort, used to model numpy's sorted outputs. -/
def sortAsc (l : List Nat) : List Nat := l.foldr insort []

/-- `np.intersect1d`: the sorted list of unique values common to both inputs. -/
def intersect1d (a b : List Nat) : List Nat :=
  sortAsc ((a.filter (fun x => b.contains x)).dedup)

/-- `np.round` on an exact rational: round half to even (banker's rounding). -/
def np_round (q : Rat) : Int :=
  let f : Int := ⌊q⌋
  let r : Rat := q - (f : Rat)
  if r < 1 / 2 then f
  else if 1 / 2 < r then f + 1
  else if 2 ∣ f then f else f + 1

/-- Line 46-48 of `conn_wiring.py`: the source-candidate ids — `get_node_ids` of the
source population restricted by `sel_src`, then filtered to the nodes whose
`synapse_class` equals `syn_class`. -/
def src_node_ids_of (nodes0 : NodePop) (sel_src : Option (Nat → Bool))
    (syn_class : String) : List Nat :=
  (get_node_ids nodes0 sel_src).filter (fun i => nodes0.synapse_class i == syn_class)

/-- Lines 55-57: target ids restricted by `sel_dest` and intersected (sorted, unique)
with the current split's ids. -/
def tgt_ids_split (nodes1 : NodePop) (sel_dest : Option (Nat → Bool))
    (split_ids : List Nat) : List Nat :=
  intersect1d (get_node_ids nodes1 sel_dest) split_ids

/-- Line 58: `num_tgt = np.round(amount_pct * len(tgt_node_ids) / 100).astype(int)`. -/
def num_tgt_of (amount_pct : Rat) (n : Nat) : Nat :=
  (np_round (amount_pct * (n : Rat) / 100)).toNat

theorem np_round_intCast (z : Int) : np_round ((z : Rat)) = z := by
  simp [np_round]

theorem num_tgt_of_zero (n : Nat) : num_tgt_of 0 n = 0 := by
  have h : (0 : Rat) * (n : Rat) / 100 = ((0 : Int) : Rat) := by norm_num
  rw [num_tgt_of, h, np_round_intCast]
  rfl

theorem num_tgt_of_hundred (n : Nat) : num_tgt_of 100 n = n := by
  have h : (100 : Rat) * (n : Rat) / 100 = ((n : Int) : Rat) := by push_cast; ring
  rw [num_tgt_of, h, np_round_intCast]
  simp

/-- Line 59, the array handed to `np.random.permutation`:
`[True] * num_tgt + [False] * (len(tgt_node_ids) - num_tgt)`. -/
def tgt_sel_init (num_tgt n : Nat) : List Bool :=
  List.replicate num_tgt true ++ List.replicate (n - num_tgt) false

/-- Line 59 including the random draw: `tgt_sel = np.random.permutation(...)`. -/
def tgt_sel_of (env : Env) (amount_pct : Rat) (n : Nat) : List Bool :=
  env.permutation (tgt_sel_init (num_tgt_of amount_pct n) n)

/-- Embedding of `conn_wiring.apply` (lines 18-69 of `conn_wiring.py`) — the reachable
part of the function.  The four input-contract assertions (lines 20-25), the optional
delay-model file check (line 32), the source-candidate computation and its two
assertions (lines 46-52), the target selection (lines 55-63), the `mtype`/`layer`
reads (lines 64-65), and the unconditional `return edges_table` at line 69.  At line
61 the code calls `logging.info`, but the module never imports `logging` (only
`connectome_manipulator.log` as `log`), so that branch raises `NameError`.  The model
objects loaded at lines 27 and 34 and the position/log reads bound to `_`-prefixed
lets are computed but never used by any reachable code. -/
def apply (edges_table : EdgesTable) (nodes : NodePop × NodePop) (aux_dict : AuxDict)
    (syn_class : String) (prob_model_file : String)
    (sel_src sel_dest : Option (Nat → Bool))
    (delay_model_file : Option String) (pos_map_file : Option String)
    (amount_pct : Rat) (env : Env) : Except PyErr EdgesTable := do
  log_assert (edges_table.rows.length == 0) "Initial connectome must be empty!"
  log_assert (syn_class == "EXC" || syn_class == "INH")
    s!"Synapse class \"{syn_class}\" not supported (must be \"EXC\" or \"INH\")!"
  log_assert (decide (0 ≤ amount_pct) && decide (amount_pct ≤ 100))
    "amount_pct out of range!"
  log_assert (env.file_exists prob_model_file) "Conn. prob. model file not found!"
  -- line 27: p_model := AbstractModel.model_from_file(prob_model_file) — external
  -- load; the loaded model is never used by any reachable code.
  match delay_model_file with
  | some f => log_assert (env.file_exists f) "Delay model file not found!"
  | none => pure ()  -- d_model = None; 'No delay model provided'
  let pos_map := env.load_pos_mapping pos_map_file
  let src_node_ids := src_node_ids_of nodes.1 sel_src syn_class
  log_assert (decide (0 < src_node_ids.length)) s!"No {syn_class} source nodes found!"
  -- lines 50-52: syn-class consistency of the synapses already wired from the
  -- selected sources (trivially true on the required empty table).
  let syn_sel_idx_src := edges_table.rows.map (fun r => src_node_ids.contains r.source_node)
  log_assert
    (if syn_class == "EXC" then
      (edges_table.rows.zip syn_sel_idx_src).all (fun p => !p.2 || decide (100 ≤ p.1.syn_type_id))
    else
      (edges_table.rows.zip syn_sel_idx_src).all (fun p => !p.2 || decide (p.1.syn_type_id < 100)))
    "Synapse class error!"
  -- line 53: source positions through the optional position mapping (unused later).
  let _src_pos := src_node_ids.map (pos_map.getD nodes.1.positions)
  let tgt_all := get_node_ids nodes.2 sel_dest
  let _num_tgt_total := tgt_all.length
  let tgt_node_ids := tgt_ids_split nodes.2 sel_dest aux_dict.split_ids
  let num_tgt := num_tgt_of amount_pct tgt_node_ids.length
  let tgt_sel := env.permutation (tgt_sel_init num_tgt tgt_node_ids.length)
  if tgt_sel.count true == 0 then
    -- line 61: `logging.info('No target nodes selected, nothing to wire')` — the
    -- name `logging` is undefined in this module, so a NameError is raised and the
    -- `return edges_table` on line 62 is never reached.
    throw (.nameError "logging")
  else
    let tgt_node_sel := (tgt_node_ids.zip tgt_sel).filterMap
      (fun p => if p.2 then some p.1 else none)
    let _tgt_mtypes := tgt_node_sel.map nodes.2.mtype
    let _tgt_layers := tgt_node_sel.map nodes.2.layer
    -- line 69: `return edges_table`.  Lines 71-202 (the wiring algorithm: probability
    -- evaluation, source resampling, reconciliation, synapse synthesis, statistics,
    -- re-sort and re-index) are unreachable dead code.
    return edges_table

/-- A delay model, per spec §6: `evaluate(distance, statistic_name) -> value` for
`statistic_name` in mean/std/min. -/
def DelayModel : Type := Rat → String → Rat

/-- Squared Euclidean distance between two 3D points (the source code takes
`np.sqrt` of this; the square root is supplied by the `np_sqrt` oracle below). -/
def sqDist3 (a b : Rat × Rat × Rat) : Rat :=
  (a.1 - b.1) ^ 2 + (a.2.1 - b.2.1) ^ 2 + (a.2.2 - b.2.2) ^ 2

/-- Embedding of `assign_delays_from_model` (lines 205-229 of `conn_wiring.py`).
The `delay_model is not None` assertion (line 207), the `syn_sel_idx` default
(lines 209-210), the three-way no-op guard (lines 212-213), the distance computation
(lines 216-218, with `np.sqrt` supplied as the oracle `np_sqrt`, and numpy fancy
indexing / broadcasting failures modelled as `indexError` / `valueError`), the three
delay-model queries (lines 221-223), and then line 226, which evaluates the name
`truncnorm` — never imported by this module (`scipy.stats.truncnorm` is absent from
the imports) — so execution raises `NameError` before any delay is assigned.
In the guard case the table is returned unchanged (the Python function mutates
in place and returns `None`; the embedding returns the table). -/
def assign_delays_from_model (delay_model : Option DelayModel)
    (nodes : NodePop × NodePop) (edges_table : EdgesTable)
    (src_new : List Nat) (src_syn_idx : List Nat)
    (syn_sel_idx : Option (List Bool)) (np_sqrt : Rat → Rat) :
    Except PyErr EdgesTable :=
  match delay_model with
  | none => .error (.assertionError "Delay model required!")
  | some dm =>
    let sel := syn_sel_idx.getD (List.replicate edges_table.rows.length true)
    if src_new.length == 0 || src_syn_idx.length == 0 || sel.count true == 0 then
      .ok edges_table
    else
      let src_new_pos := src_new.map nodes.1.positions
      let sel_rows := (edges_table.rows.zip sel).filterMap
        (fun p => if p.2 then some p.1 else none)
      let syn_pos := sel_rows.map
        (fun r => (r.afferent_center_x, r.afferent_center_y, r.afferent_center_z))
      if src_syn_idx.any (fun i => src_new_pos.length ≤ i) then
        .error .indexError  -- numpy fancy indexing out of bounds
      else if syn_pos.length != src_syn_idx.length
          && syn_pos.length != 1 && src_syn_idx.length != 1 then
        .error .valueError  -- numpy broadcasting failure in the subtraction
      else
        let syn_dist := (syn_pos.zip (src_syn_idx.map
            (fun i => src_new_pos.getD i (0, 0, 0)))).map
          (fun pq => np_sqrt (sqDist3 pq.1 pq.2))
        let _d_mean := syn_dist.map (fun d => dm d "mean")
        let _d_std := syn_dist.map (fun d => dm d "std")
        let _d_min := syn_dist.map (fun d => dm d "min")
        -- line 226: `truncnorm(a=..., b=..., loc=..., scale=...).rvs()` — the name
        -- `truncnorm` is undefined in this module, so a NameError is raised and the
        -- delay column (line 229) is never written.
        .error (.nameError "truncnorm")

/-- `pandas.Series.is_monotonic_increasing`: the list is non-decreasing. -/
def is_monotonic_increasing : List Nat → Bool
  | [] => true
  | [_] => true
  | a :: b :: t => decide (a ≤ b) && is_monotonic_increasing (b :: t)

/-- Embedding of the post-manipulation assertion in
`connectome_manipulation.py`, line 336:
`log.log_assert(edges_table_manip['@target_node'].is_monotonic_increasing,
'Target nodes not monotonically increasing!')`, executed by the driver loop right
after the manipulation returns. -/
def main_postcondition_check (t : EdgesTable) : Except PyErr Unit :=
  log_assert (is_monotonic_increasing (t.rows.map (fun r => r.target_node)))
    "Target nodes not monotonically increasing!"

/-- The table is sorted ascending by (target id, source id) — the ordering produced
by `edges_table.sort_values(['@target_node', '@source_node'])`. -/
def sorted_by_target_source (t : EdgesTable) : Prop :=
  List.Chain' (fun a b => a.target_node < b.target_node ∨
    (a.target_node = b.target_node ∧ a.source_node ≤ b.source_node)) t.rows

/-- The table carries a dense zero-based row index `0..n-1` (what
`reset_index(drop=True)` produces). -/
def dense_index (t : EdgesTable) : Prop :=
  t.index = List.range t.rows.length

/-- The rows of `out` that are not rows of `inp`: the synapses newly synthesized by a
manipulation that received `inp` and returned `out`. -/
def synthesized_rows (inp out : EdgesTable) : List SynRow :=
  out.rows.filter (fun r => !inp.rows.contains r)

/-! ## Reduction lemmas for the `Except` monad -/

theorem except_ok_bind {α β : Type} (a : α) (f : α → Except PyErr β) :
    (Except.ok a >>= f : Except PyErr β) = f a := rfl

theorem except_pure_bind {α β : Type} (a : α) (f : α → Except PyErr β) :
    (pure a >>= f : Except PyErr β) = f a := rfl

theorem except_error_bind {α β : Type} (e : PyErr) (f : α → Except PyErr β) :
    (Except.error e >>= f : Except PyErr β) = .error e := rfl

theorem log_assert_of_true {c : Bool} (h : c = true) (msg : String) :
    log_assert c msg = .ok () := by simp [log_assert, h]

theorem log_assert_of_false {c : Bool} (h : c = false) (msg : String) :
    log_assert c msg = .error (.assertionError msg) := by simp [log_assert, h]

/-! ## The central behaviour of `apply`

Under the documented preconditions, and whenever the randomly drawn target
selection is non-empty, `conn_wiring.apply` runs to the unconditional
`return edges_table` at line 69 and hands back the input table unchanged. -/

theorem apply_ok_of_valid (edges_table : EdgesTable) (nodes : NodePop × NodePop)
    (aux_dict : AuxDict) (syn_class : String) (prob_model_file : String)
    (sel_src sel_dest : Option (Nat → Bool)) (delay_model_file : Option String)
    (pos_map_file : Option String) (amount_pct : Rat) (env : Env)
    (hempty : edges_table.rows = [])
    (hclass : syn_class = "EXC" ∨ syn_class = "INH")
    (hpct1 : 0 ≤ amount_pct) (hpct2 : amount_pct ≤ 100)
    (hprob : env.file_exists prob_model_file = true)
    (hdelay : ∀ f, delay_model_file = some f → env.file_exists f = true)
    (hsrc : 0 < (src_node_ids_of nodes.1 sel_src syn_class).length)
    (hsel : 0 < (tgt_sel_of env amount_pct
      (tgt_ids_split nodes.2 sel_dest aux_dict.split_ids).length).count true) :
    apply edges_table nodes aux_dict syn_class prob_model_file sel_src sel_dest
      delay_model_file pos_map_file amount_pct env = .ok edges_table := by
  have c1 : (edges_table.rows.length == 0) = true := by simp [hempty]
  have c2 : (syn_class == "EXC" || syn_class == "INH") = true := by
    rcases hclass with h | h <;> subst h <;> rfl
  have c3 : (decide (0 ≤ amount_pct) && decide (amount_pct ≤ 100)) = true := by
    simp [hpct1, hpct2]
  have c5 : decide (0 < (src_node_ids_of nodes.1 sel_src syn_class).length) = true := by
    simp [hsrc]
  have c7 : ((tgt_sel_of env amount_pct
      (tgt_ids_split nodes.2 sel_dest aux_dict.split_ids).length).count true == 0) = false := by
    simp [Nat.pos_iff_ne_zero.mp hsel]
  rw [apply]
  rw [log_assert_of_true c1, except_ok_bind, log_assert_of_true c2, except_ok_bind,
    log_assert_of_true c3, except_ok_bind, log_assert_of_true hprob, except_ok_bind]
  simp only [tgt_sel_of] at c7
  rcases delay_model_file with _ | f
  · simp only [except_ok_bind, except_pure_bind, log_assert_of_true c5, hempty]
    simp [c7, log_assert]
  · simp only [log_assert_of_true (hdelay f rfl), except_ok_bind, except_pure_bind,
      log_assert_of_true c5, hempty]
    simp [c7, log_assert]

/-! ## Concrete fixtures -/

/-- An empty edges table (the required initial state for `conn_wiring`). -/
def emptyTable : EdgesTable := ⟨[], [], rfl⟩

/-- Ten excitatory source candidates, ids `0..9`. -/
def srcPop : NodePop :=
  ⟨List.range 10, fun _ => "EXC", fun _ => "L4_PC", fun _ => "L4",
   fun i => ((i : Rat), 0, 0)⟩

/-- Five target neurons, ids `10..14`. -/
def tgtPop : NodePop :=
  ⟨[10, 11, 12, 13, 14], fun _ => "EXC", fun _ => "L4_PC", fun _ => "L4",
   fun i => ((i : Rat), 1, 0)⟩

/-- The split containing all five target neurons. -/
def theAux : AuxDict := ⟨[10, 11, 12, 13, 14]⟩

/-- A deterministic environment: every file exists, no position mapping, and the
"random" permutation is the identity (a legal value of `np.random.permutation`). -/
def idEnv : Env := ⟨fun _ => true, fun _ => none, fun l => l⟩

/-! ## Claims -/

/-- Claim C1 (confirmed).  For every call to `conn_wiring.apply` satisfying the
documented preconditions (empty initial edge table, `syn_class` in EXC/INH,
`amount_pct` in `[0,100]`, existing probability-model file — and, when given, an
existing delay-model file — at least one source candidate of the requested class)
for which at least one target neuron is selected, the function returns the input
edges table unchanged — no synapses are generated, removed or rewired and no
statistics are emitted — for every probability model, `keep_indegree` setting and
delay model: execution reaches the unconditional `return edges_table` at line 69
and the entire wiring algorithm (lines 71-202) is dead code.  (`apply` takes no
`keep_indegree` argument at all; the flag only occurs in the dead code.) -/
theorem C1_apply_valid_run_returns_input_unchanged (edges_table : EdgesTable)
    (nodes : NodePop × NodePop) (aux_dict : AuxDict) (syn_class : String)
    (prob_model_file : String) (sel_src sel_dest : Option (Nat → Bool))
    (delay_model_file : Option String) (pos_map_file : Option String)
    (amount_pct : Rat) (env : Env)
    (hempty : edges_table.rows = [])
    (hclass : syn_class = "EXC" ∨ syn_class = "INH")
    (hpct : 0 ≤ amount_pct ∧ amount_pct ≤ 100)
    (hprob : env.file_exists prob_model_file = true)
    (hdelay : ∀ f, delay_model_file = some f → env.file_exists f = true)
    (hsrc : 0 < (src_node_ids_of nodes.1 sel_src syn_class).length)
    (hsel : 0 < (tgt_sel_of env amount_pct
      (tgt_ids_split nodes.2 sel_dest aux_dict.split_ids).length).count true) :
    apply edges_table nodes aux_dict syn_class prob_model_file sel_src sel_dest
      delay_model_file pos_map_file amount_pct env = .ok edges_table :=
  apply_ok_of_valid edges_table nodes aux_dict syn_class prob_model_file sel_src
    sel_dest delay_model_file pos_map_file amount_pct env hempty hclass hpct.1
    hpct.2 hprob hdelay hsrc hsel

theorem C1_witness :
    apply emptyTable (srcPop, tgtPop) theAux "EXC" "prob.model" none none
      (some "delay.model") none 100 idEnv = .ok emptyTable :=
  C1_apply_valid_run_returns_input_unchanged emptyTable (srcPop, tgtPop) theAux
    "EXC" "prob.model" none none (some "delay.model") none 100 idEnv rfl
    (Or.inl rfl) ⟨by norm_num, by norm_num⟩ rfl (fun _ _ => rfl)
    (by decide) (by unfold tgt_sel_of; rw [num_tgt_of_hundred]; decide)

/-- Claim C2 (code_bug).  When `amount_pct = 0` — so zero target neurons are
selected for the batch — the claim says `apply` is a legitimate no-op returning the
input table without raising.  The code instead raises `NameError`: the
zero-selection branch at line 61 calls `logging.info(...)`, but `conn_wiring.py`
never imports `logging` (only `connectome_manipulator.log` as `log`), so the
`return edges_table` at line 62 is unreachable.  Evaluating the embedded code at
the failing input (valid empty table, `amount_pct = 0`, five targets in the split)
yields the `NameError` instead of the no-op. -/
theorem C2_amount_pct_zero_raises_nameError :
    apply emptyTable (srcPop, tgtPop) theAux "EXC" "prob.model" none none none
      none 0 idEnv = .error (.nameError "logging") := by
  simp only [apply, num_tgt_of_zero]
  rfl

/-- Claim C3 (code_bug).  The claim describes the scenario: empty input table,
`syn_class = EXC`, a constant probability model returning 0.3,
`keep_indegree = false`, 10 candidate sources, 5 target neurons — with each
candidate becoming a source of each target by an independent Bernoulli(0.3) trial
(dead code, lines 116-118).  The code never performs any Bernoulli trial: execution
stops at the unconditional `return edges_table` at line 69, so for EVERY random
draw (any valid permutation oracle) the output is the unchanged empty input table —
deterministically zero connections added, with no dependence on the probability
model, contradicting the claimed per-candidate sampling mechanism. -/
theorem C3_scenario_never_samples_and_adds_nothing (env : Env)
    (hprob : env.file_exists "prob.model" = true)
    (hperm : ∀ l : List Bool, List.Perm (env.permutation l) l) :
    apply emptyTable (srcPop, tgtPop) theAux "EXC" "prob.model" none none none
      none 100 env = .ok emptyTable := by
  have hsel : 0 < (tgt_sel_of env 100
      (tgt_ids_split tgtPop none theAux.split_ids).length).count true := by
    unfold tgt_sel_of
    rw [List.Perm.count_eq (hperm _), num_tgt_of_hundred]
    decide
  exact apply_ok_of_valid emptyTable (srcPop, tgtPop) theAux "EXC" "prob.model"
    none none none none 100 env rfl (Or.inl rfl) (by norm_num) (by norm_num)
    hprob (fun f h => Option.noConfusion h) (by decide) hsel

theorem C3_witness :
    apply emptyTable (srcPop, tgtPop) theAux "EXC" "prob.model" none none none
      none 100 idEnv = .ok emptyTable :=
  C3_scenario_never_samples_and_adds_nothing idEnv rfl (fun l => List.Perm.refl l)

/-- The spec's `keep_indegree = true` scenario table: ten existing connections,
one synapse each — ten targets `10..19`, ten distinct sources `0..9`. -/
def tenConnTable : EdgesTable :=
  ⟨(List.range 10).map (fun i => ⟨i, 10 + i, 120, 1, 0, 0, 0, []⟩),
   List.range 10, by simp⟩

/-- Claim C4 (code_bug).  The claim describes the `keep_indegree = true` policy:
per-target in-degree preserved, new sources drawn without replacement weighted by
normalized `p_src`, with an error when the candidate pool is too small (dead code,
lines 112-114).  In the code, `apply` does not even accept a `keep_indegree`
argument — the identifier occurs only in dead code after the unconditional
`return` at line 69, where it is an undefined name — and no draw ever happens.
Moreover, any input on which in-degree preservation would be non-trivial (a table
with existing connections, such as the spec's own 10-connection scenario) is
rejected up front by the `Initial connectome must be empty!` assertion, as this
evaluation of the embedded code at that input shows. -/
theorem C4_keep_indegree_scenario_rejected_before_any_draw :
    apply tenConnTable (srcPop, tgtPop) theAux "EXC" "prob.model" none none none
      none 100 idEnv =
      .error (.assertionError "Initial connectome must be empty!") := by
  rfl

/-- Three inhibitory source candidates, ids `0..2`. -/
def inhSrcPop : NodePop :=
  ⟨[0, 1, 2], fun _ => "INH", fun _ => "L5_MC", fun _ => "L5",
   fun i => ((i : Rat), 0, 0)⟩

/-- Four inhibitory-side target neurons, ids `3..6`. -/
def inhTgtPop : NodePop :=
  ⟨[3, 4, 5, 6], fun _ => "INH", fun _ => "L5_MC", fun _ => "L5",
   fun i => ((i : Rat), 2, 0)⟩

/-- The split containing the four inhibitory-side targets. -/
def inhAux : AuxDict := ⟨[3, 4, 5, 6]⟩

/-- Claim C5 (code_bug).  The claim describes per-target reconciliation: deleting
exactly the excess existing connections when the new source count is smaller, and
relabeling sources in place when the counts are equal (dead code, lines 121-126 and
173-180).  None of this is reachable: execution returns at line 69, before the
deletion-mask bookkeeping (`syn_del_idx`, itself an undefined name in the dead
code) or the `@source_node` relabeling ever runs.  A complete valid run (here with
`syn_class = INH`) hands the table back verbatim — no row deleted, no source id
relabeled — and a table that actually has existing connections to reconcile is
rejected by the empty-table assertion (claim C4's theorem). -/
theorem C5_no_deletion_no_relabeling_table_verbatim :
    apply emptyTable (inhSrcPop, inhTgtPop) inhAux "INH" "prob.model" none none
      none none 100 idEnv = .ok emptyTable := by
  simp only [apply, num_tgt_of_hundred]
  rfl

/-- A two-row table whose target ids are out of order (5 before 3). -/
def outOfOrderTable : EdgesTable :=
  ⟨[⟨0, 5, 120, 1, 0, 0, 0, []⟩, ⟨1, 3, 120, 1, 0, 0, 0, []⟩], [0, 1], rfl⟩

/-- Claim C6 (confirmed).  Every completed batch of `conn_wiring.apply` returns a
table sorted by (target id, source id) ascending with a dense zero-based index
`0..n-1`: under the mandatory empty-table precondition the returned table is the
input itself, which is empty and hence trivially sorted and densely indexed (the
dead re-sort/re-index at lines 192-195 is never needed on a reachable path).  And
target-id monotonicity is indeed verified as a hard postcondition by the fatal
assertion at `connectome_manipulation.py` line 336, which succeeds exactly when the
target column is monotonically non-decreasing. -/
theorem C6_output_sorted_dense_and_monotonicity_asserted :
    (∀ (edges_table : EdgesTable) (nodes : NodePop × NodePop) (aux_dict : AuxDict)
      (syn_class prob_model_file : String)
      (sel_src sel_dest : Option (Nat → Bool))
      (delay_model_file pos_map_file : Option String) (amount_pct : Rat)
      (env : Env),
      edges_table.rows = [] →
      (syn_class = "EXC" ∨ syn_class = "INH") →
      0 ≤ amount_pct → amount_pct ≤ 100 →
      env.file_exists prob_model_file = true →
      (∀ f, delay_model_file = some f → env.file_exists f = true) →
      0 < (src_node_ids_of nodes.1 sel_src syn_class).length →
      0 < (tgt_sel_of env amount_pct
        (tgt_ids_split nodes.2 sel_dest aux_dict.split_ids).length).count true →
      apply edges_table nodes aux_dict syn_class prob_model_file sel_src sel_dest
        delay_model_file pos_map_file amount_pct env = .ok edges_table ∧
      sorted_by_target_source edges_table ∧ dense_index edges_table) ∧
    (∀ t : EdgesTable, main_postcondition_check t = .ok () ↔
      is_monotonic_increasing (t.rows.map (fun r => r.target_node)) = true) := by
  constructor
  · intro edges_table nodes aux_dict syn_class prob_model_file sel_src sel_dest
      delay_model_file pos_map_file amount_pct env hempty hclass hpct1 hpct2
      hprob hdelay hsrc hsel
    refine ⟨apply_ok_of_valid edges_table nodes aux_dict syn_class
      prob_model_file sel_src sel_dest delay_model_file pos_map_file amount_pct
      env hempty hclass hpct1 hpct2 hprob hdelay hsrc hsel, ?_, ?_⟩
    · simp [sorted_by_target_source, hempty]
    · have hidx : edges_table.index = [] :=
        List.length_eq_zero.mp (by rw [edges_table.hlen, hempty]; rfl)
      simp [dense_index, hempty, hidx]
  · intro t
    cases h : is_monotonic_increasing (t.rows.map fun r => r.target_node) <;>
      simp [main_postcondition_check, log_assert, h]

theorem C6_witness :
    (apply emptyTable (srcPop, tgtPop) theAux "EXC" "prob.model" none none none
      (some "pos.map") 100 idEnv = .ok emptyTable ∧
     sorted_by_target_source emptyTable ∧ dense_index emptyTable) ∧
    (main_postcondition_check outOfOrderTable = .ok () ↔
     is_monotonic_increasing (outOfOrderTable.rows.map fun r => r.target_node) =
       true) :=
  ⟨C6_output_sorted_dense_and_monotonicity_asserted.1 emptyTable (srcPop, tgtPop)
    theAux "EXC" "prob.model" none none none (some "pos.map") 100 idEnv rfl
    (Or.inl rfl) (by norm_num) (by norm_num) rfl (fun f h => Option.noConfusion h)
    (by decide) (by unfold tgt_sel_of; rw [num_tgt_of_hundred]; decide),
   C6_output_sorted_dense_and_monotonicity_asserted.2 outOfOrderTable⟩

/-- A constant delay model (mean/std/min all 1 at every distance). -/
def constDelayModel : DelayModel := fun _ _ => 1

/-- A one-synapse table: source 0, target 10, synapse position (1,2,3). -/
def oneRowTable : EdgesTable := ⟨[⟨0, 10, 120, 1, 1, 2, 3, []⟩], [0], rfl⟩

/-- Claim C7 (code_bug).  The claim says every delay assigned by
`assign_delays_from_model` is drawn from a left-truncated normal and is ≥ the
model's minimum for the synapse's distance.  The code can never assign any delay:
line 226 evaluates the name `truncnorm`, but `conn_wiring.py` never imports it
(`scipy.stats.truncnorm` is absent from the module's imports), so every call that
gets past the no-op guards raises `NameError` before the write to the `delay`
column at line 229.  Evaluating the embedded code at a failing input (one selected
synapse, one new source, a well-formed index map and a constant delay model)
produces the `NameError` instead of a truncated-normal draw. -/
theorem C7_truncnorm_undefined_raises_nameError :
    assign_delays_from_model (some constDelayModel) (srcPop, tgtPop) oneRowTable
      [3] [0] none (fun q => q) = .error (.nameError "truncnorm") := by
  rfl

/-- Claim C8 (confirmed).  `assign_delays_from_model` returns immediately, without
raising, whenever the new-source list is empty, the synapse-to-connection index
mapping is empty, or no synapses are selected (the three-way guard at lines
212-213, which precedes every fallible computation); and when no delay model is
supplied at all (`delay_model_file = None`), `apply` leaves every pre-existing
delay value untouched — it returns the input table itself. -/
theorem C8_guard_noop_and_skip_without_delay_model :
    (∀ (dm : DelayModel) (nodes : NodePop × NodePop) (edges_table : EdgesTable)
      (src_new src_syn_idx : List Nat) (syn_sel_idx : Option (List Bool))
      (np_sqrt : Rat → Rat),
      (src_new = [] ∨ src_syn_idx = [] ∨
        (syn_sel_idx.getD
          (List.replicate edges_table.rows.length true)).count true = 0) →
      assign_delays_from_model (some dm) nodes edges_table src_new src_syn_idx
        syn_sel_idx np_sqrt = .ok edges_table) ∧
    (∀ (edges_table : EdgesTable) (nodes : NodePop × NodePop)
      (aux_dict : AuxDict) (syn_class prob_model_file : String)
      (sel_src sel_dest : Option (Nat → Bool)) (pos_map_file : Option String)
      (amount_pct : Rat) (env : Env),
      edges_table.rows = [] →
      (syn_class = "EXC" ∨ syn_class = "INH") →
      0 ≤ amount_pct → amount_pct ≤ 100 →
      env.file_exists prob_model_file = true →
      0 < (src_node_ids_of nodes.1 sel_src syn_class).length →
      0 < (tgt_sel_of env amount_pct
        (tgt_ids_split nodes.2 sel_dest aux_dict.split_ids).length).count true →
      apply edges_table nodes aux_dict syn_class prob_model_file sel_src sel_dest
        none pos_map_file amount_pct env = .ok edges_table) := by
  constructor
  · intro dm nodes edges_table src_new src_syn_idx syn_sel_idx np_sqrt h
    rcases h with h | h | h <;> simp [assign_delays_from_model, h]
  · intro edges_table nodes aux_dict syn_class prob_model_file sel_src sel_dest
      pos_map_file amount_pct env hempty hclass hpct1 hpct2 hprob hsrc hsel
    exact apply_ok_of_valid edges_table nodes aux_dict syn_class prob_model_file
      sel_src sel_dest none pos_map_file amount_pct env hempty hclass hpct1
      hpct2 hprob (fun f h => Option.noConfusion h) hsrc hsel

theorem C8_witness :
    assign_delays_from_model (some constDelayModel) (srcPop, tgtPop) oneRowTable
      [] [0] none (fun q => q) = .ok oneRowTable ∧
    apply emptyTable (srcPop, tgtPop) theAux "EXC" "prob.model" none
      (some fun i => decide (10 ≤ i)) none none 100 idEnv = .ok emptyTable :=
  ⟨C8_guard_noop_and_skip_without_delay_model.1 constDelayModel (srcPop, tgtPop)
    oneRowTable [] [0] none (fun q => q) (Or.inl rfl),
   C8_guard_noop_and_skip_without_delay_model.2 emptyTable (srcPop, tgtPop)
    theAux "EXC" "prob.model" none (some fun i => decide (10 ≤ i)) none 100
    idEnv rfl (Or.inl rfl) (by norm_num) (by norm_num) rfl (by decide)
    (by unfold tgt_sel_of; rw [num_tgt_of_hundred]; decide)⟩

/-- Claim C9 (code_bug).  The claim describes per-connection resampling and
broadcast of non-morphological property columns for newly synthesized connections
(dead code, lines 155-161; the property-column selector itself, line 72, is
commented out with a `#???` marker and `props_sel` would be an undefined name).
No connection is ever synthesized: every completed run of `apply` returns the
input table verbatim, so the set of newly synthesized rows is empty and the claimed
resampling-and-broadcast mechanism never executes on any reachable path. -/
theorem C9_no_connection_is_ever_synthesized (edges_table : EdgesTable)
    (nodes : NodePop × NodePop) (aux_dict : AuxDict)
    (syn_class prob_model_file : String) (sel_src sel_dest : Option (Nat → Bool))
    (delay_model_file pos_map_file : Option String) (amount_pct : Rat)
    (env : Env)
    (hempty : edges_table.rows = [])
    (hclass : syn_class = "EXC" ∨ syn_class = "INH")
    (hpct1 : 0 ≤ amount_pct) (hpct2 : amount_pct ≤ 100)
    (hprob : env.file_exists prob_model_file = true)
    (hdelay : ∀ f, delay_model_file = some f → env.file_exists f = true)
    (hsrc : 0 < (src_node_ids_of nodes.1 sel_src syn_class).length)
    (hsel : 0 < (tgt_sel_of env amount_pct
      (tgt_ids_split nodes.2 sel_dest aux_dict.split_ids).length).count true) :
    apply edges_table nodes aux_dict syn_class prob_model_file sel_src sel_dest
      delay_model_file pos_map_file amount_pct env = .ok edges_table ∧
    synthesized_rows edges_table edges_table = [] :=
  ⟨apply_ok_of_valid edges_table nodes aux_dict syn_class prob_model_file
    sel_src sel_dest delay_model_file pos_map_file amount_pct env hempty hclass
    hpct1 hpct2 hprob hdelay hsrc hsel,
   by simp [synthesized_rows, hempty]⟩

theorem C9_witness :
    apply emptyTable (srcPop, tgtPop) theAux "EXC" "prob.model"
      (some fun i => decide (i < 10)) none none none 100 idEnv =
      .ok emptyTable ∧
    synthesized_rows emptyTable emptyTable = [] :=
  C9_no_connection_is_ever_synthesized emptyTable (srcPop, tgtPop) theAux "EXC"
    "prob.model" (some fun i => decide (i < 10)) none none none 100 idEnv rfl
    (Or.inl rfl) (by norm_num) (by norm_num) rfl (fun f h => Option.noConfusion h)
    (by decide) (by unfold tgt_sel_of; rw [num_tgt_of_hundred]; decide)

/-- An environment in which no file exists. -/
def noFileEnv : Env := ⟨fun _ => false, fun _ => none, fun l => l⟩

/-- Claim C10 (confirmed).  `conn_wiring.apply` fails with a fatal assertion,
before any mutation of the edge table (in the embedding an assertion error is
returned instead of any table, and the checks at lines 20-25 precede every table
write in the source), whenever an input contract is violated: non-empty initial
table (line 20), `syn_class` neither EXC nor INH (line 21), `amount_pct` outside
`[0,100]` (line 22), or a missing probability-model file (line 25) — each reported
with its own message, checked in that order. -/
theorem C10_contract_violations_abort_with_assertion (edges_table : EdgesTable)
    (nodes : NodePop × NodePop) (aux_dict : AuxDict)
    (syn_class prob_model_file : String) (sel_src sel_dest : Option (Nat → Bool))
    (delay_model_file pos_map_file : Option String) (amount_pct : Rat)
    (env : Env) :
    (edges_table.rows ≠ [] →
      apply edges_table nodes aux_dict syn_class prob_model_file sel_src sel_dest
        delay_model_file pos_map_file amount_pct env =
        .error (.assertionError "Initial connectome must be empty!")) ∧
    (edges_table.rows = [] → syn_class ≠ "EXC" → syn_class ≠ "INH" →
      apply edges_table nodes aux_dict syn_class prob_model_file sel_src sel_dest
        delay_model_file pos_map_file amount_pct env =
        .error (.assertionError
          s!"Synapse class \"{syn_class}\" not supported (must be \"EXC\" or \"INH\")!")) ∧
    (edges_table.rows = [] → (syn_class = "EXC" ∨ syn_class = "INH") →
      ¬(0 ≤ amount_pct ∧ amount_pct ≤ 100) →
      apply edges_table nodes aux_dict syn_class prob_model_file sel_src sel_dest
        delay_model_file pos_map_file amount_pct env =
        .error (.assertionError "amount_pct out of range!")) ∧
    (edges_table.rows = [] → (syn_class = "EXC" ∨ syn_class = "INH") →
      0 ≤ amount_pct → amount_pct ≤ 100 →
      env.file_exists prob_model_file = false →
      apply edges_table nodes aux_dict syn_class prob_model_file sel_src sel_dest
        delay_model_file pos_map_file amount_pct env =
        .error (.assertionError "Conn. prob. model file not found!")) := by
  refine ⟨?_, ?_, ?_, ?_⟩
  · intro h
    have c : (edges_table.rows.length == 0) = false := by
      simp [List.length_eq_zero, h]
    rw [apply, log_assert_of_false c, except_error_bind]
  · intro hempty h1 h2
    have c1 : (edges_table.rows.length == 0) = true := by simp [hempty]
    have c : (syn_class == "EXC" || syn_class == "INH") = false := by
      simp [h1, h2]
    rw [apply, log_assert_of_true c1, except_ok_bind, log_assert_of_false c,
      except_error_bind]
  · intro hempty hclass h3
    have c1 : (edges_table.rows.length == 0) = true := by simp [hempty]
    have c2 : (syn_class == "EXC" || syn_class == "INH") = true := by
      rcases hclass with h | h <;> subst h <;> rfl
    have c : (decide (0 ≤ amount_pct) && decide (amount_pct ≤ 100)) = false := by
      rcases not_and_or.mp h3 with h | h <;> simp [h]
    rw [apply, log_assert_of_true c1, except_ok_bind, log_assert_of_true c2,
      except_ok_bind, log_assert_of_false c, except_error_bind]
  · intro hempty hclass hpct1 hpct2 hfile
    have c1 : (edges_table.rows.length == 0) = true := by simp [hempty]
    have c2 : (syn_class == "EXC" || syn_class == "INH") = true := by
      rcases hclass with h | h <;> subst h <;> rfl
    have c3 : (decide (0 ≤ amount_pct) && decide (amount_pct ≤ 100)) = true := by
      simp [hpct1, hpct2]
    rw [apply, log_assert_of_true c1, except_ok_bind, log_assert_of_true c2,
      except_ok_bind, log_assert_of_true c3, except_ok_bind,
      log_assert_of_false hfile, except_error_bind]

theorem C10_witness :
    (apply oneRowTable (inhSrcPop, inhTgtPop) inhAux "INH" "prob.model" none
       none none none 100 idEnv =
       .error (.assertionError "Initial connectome must be empty!")) ∧
    (apply emptyTable (srcPop, tgtPop) theAux "GABA" "prob.model" none none
       none none 100 idEnv =
       .error (.assertionError
         "Synapse class \"GABA\" not supported (must be \"EXC\" or \"INH\")!")) ∧
    (apply emptyTable (srcPop, tgtPop) theAux "EXC" "prob.model" none none
       none none 150 idEnv =
       .error (.assertionError "amount_pct out of range!")) ∧
    (apply emptyTable (srcPop, tgtPop) theAux "EXC" "prob.model" none none
       none none 100 noFileEnv =
       .error (.assertionError "Conn. prob. model file not found!")) :=
  ⟨(C10_contract_violations_abort_with_assertion oneRowTable
      (inhSrcPop, inhTgtPop) inhAux "INH" "prob.model" none none none none 100
      idEnv).1 (by simp [oneRowTable]),
   (C10_contract_violations_abort_with_assertion emptyTable (srcPop, tgtPop)
      theAux "GABA" "prob.model" none none none none 100 idEnv).2.1 rfl
      (by decide) (by decide),
   (C10_contract_violations_abort_with_assertion emptyTable (srcPop, tgtPop)
      theAux "EXC" "prob.model" none none none none 150 idEnv).2.2.1 rfl
      (Or.inl rfl) (by norm_num),
   (C10_contract_violations_abort_with_assertion emptyTable (srcPop, tgtPop)
      theAux "EXC" "prob.model" none none none none 100 noFileEnv).2.2.2 rfl
      (Or.inl rfl) (by norm_num) (by norm_num) rfl⟩
